import Mathlib

/-!
Verification development for the billing / installment ledger of
`backend/server.py` (pharmatrack).

Monetary amounts are embedded as rationals (`ℚ`); Python's arithmetic on
these values is modelled exactly.  Dates are year/month/day triples, with
Python `datetime` validation (`replace` raising `ValueError` on an invalid
date) modelled as an `Except`.  Enum attribute lookup is modelled by a
name-indexed partial lookup returning `Option`, mirroring the
`AttributeError` a missing enum member raises.
-/

namespace PharmaTrack

/-- Calendar dates as year/month/day, mirroring the components of a Python
`datetime` that the ledger code manipulates. -/
structure Date where
  year : Nat
  month : Nat
  day : Nat
deriving DecidableEq, Repr

/-- The Gregorian leap-year rule that Python's `datetime` validation uses. -/
def isLeapYear (y : Nat) : Bool :=
  (y % 4 == 0 && y % 100 != 0) || (y % 400 == 0)

/-- Number of days in a month of the real (Gregorian) calendar, as enforced
by Python `datetime`. -/
def gregDaysInMonth (y m : Nat) : Nat :=
  if m = 2 then (if isLeapYear y then 29 else 28)
  else if m = 4 ∨ m = 6 ∨ m = 9 ∨ m = 11 then 30
  else 31

/-- Validity of a date in the real calendar (what `datetime` accepts). -/
def isValidDate (d : Date) : Bool :=
  1 ≤ d.month && d.month ≤ 12 && 1 ≤ d.day && d.day ≤ gregDaysInMonth d.year d.month

/-- `datetime.replace(year=, month=, day=)`: returns the date when it is
valid and raises `ValueError` otherwise. -/
def pyReplace (d : Date) : Except String Date :=
  if isValidDate d then .ok d else .error "ValueError: day is out of range for month"

/-- Successor day in the real calendar (used to model `timedelta` addition). -/
def nextDay (d : Date) : Date :=
  if d.day < gregDaysInMonth d.year d.month then ⟨d.year, d.month, d.day + 1⟩
  else if d.month < 12 then ⟨d.year, d.month + 1, 1⟩
  else ⟨d.year + 1, 1, 1⟩

/-- `date + timedelta(days = n)` for a valid date. -/
def addDays (d : Date) (n : Nat) : Date :=
  nextDay^[n] d

/-- The month-length table hard-coded in `create_invoice_from_order`'s
monthly branch:
`[31, 29 if year % 4 == 0 else 28, 31, 30, 31, 30, 31, 31, 30, 31, 30, 31]`.
Note the simplified `year % 4 == 0` leap test. -/
def codeDaysInMonth (y m : Nat) : Nat :=
  if m = 2 then (if y % 4 = 0 then 29 else 28)
  else if m = 4 ∨ m = 6 ∨ m = 9 ∨ m = 11 then 30
  else 31

/-- The target date the monthly branch computes before calling
`datetime.replace`:
`month = due.month + i; year = due.year + (month-1)//12;`
`month = ((month-1)%12)+1; day = min(due.day, table[month-1])`. -/
def monthlyTarget (first : Date) (i : Nat) : Date :=
  let m0 := first.month + i
  let y := first.year + (m0 - 1) / 12
  let m := (m0 - 1) % 12 + 1
  ⟨y, m, min first.day (codeDaysInMonth y m)⟩

/-- Due date of installment `i` (0-based) as computed inside the
installment-creation loop of `create_invoice_from_order`. -/
def dueDateOf (schedule_type : String) (first : Date) (interval_days : Nat)
    (i : Nat) : Except String Date :=
  if schedule_type = "monthly" then pyReplace (monthlyTarget first i)
  else if schedule_type = "weekly" then .ok (addDays first (7 * i))
  else .ok (addDays first (i * interval_days))

/-! ## Sequence allocator

`server.py` defines `get_next_serial_number` twice.  The second definition
(line 1564) shadows the first (line 1452) at module level, so every caller
runs the second one: it looks up the document with the greatest
`serial_number` field in the collection and returns that value plus one, or
`default_start` when no document carries the field. -/

/-- Effective `get_next_serial_number` (the later, shadowing definition):
`serial_numbers` is the list of values of the `serial_number` field over
the collection's documents. -/
def get_next_serial_number (serial_numbers : List Nat) (default_start : Nat) : Nat :=
  match serial_numbers.max? with
  | some m => m + 1
  | none => default_start

/-- The earlier, shadowed (hence dead) `get_next_serial_number` over the
`counters` collection: an atomic `$inc` upsert followed by the
first-call / below-start special cases, acting on the stored value of the
counter (`none` when the counter document does not exist yet).  Returns the
issued number and the new stored counter value. -/
def get_next_serial_number_counters (seq : Option Nat) (start_from : Nat) :
    Nat × Option Nat :=
  let s := seq.getD 0 + 1
  if s = 1 then (start_from, some start_from)
  else if s < start_from then (start_from, some start_from)
  else (s, some s)

/-! ## Enums and records -/

/-- The `AuditLogType` enum of `server.py` (lines 356–361).  Note that it
has no `PAYMENT_RECEIVED` member — that name belongs to `NotificationType`. -/
inductive AuditLogType where
  | INVOICE_CREATED
  | PAYMENT_RECORDED
  | EXPENSE_APPROVED
  | EXPENSE_REJECTED
  | INVOICE_CANCELLED
deriving DecidableEq, Repr

/-- Python attribute lookup `AuditLogType.<NAME>`: `some` member for a name
the enum defines, `none` (an `AttributeError`) otherwise. -/
def AuditLogType.fromName (s : String) : Option AuditLogType :=
  if s = "INVOICE_CREATED" then some .INVOICE_CREATED
  else if s = "PAYMENT_RECORDED" then some .PAYMENT_RECORDED
  else if s = "EXPENSE_APPROVED" then some .EXPENSE_APPROVED
  else if s = "EXPENSE_REJECTED" then some .EXPENSE_REJECTED
  else if s = "INVOICE_CANCELLED" then some .INVOICE_CANCELLED
  else none

/-- The fields of an `Invoice` document that the ledger operations read and
write (`server.py` line 1243). -/
structure Invoice where
  invoice_number : Nat
  total_amount : ℚ
  paid_amount : ℚ
  remaining_amount : ℚ
  status : String
  payments : List ℚ
deriving DecidableEq, Repr

/-- The fields of an `Installment` document that the ledger operations read
and write (`server.py` line 1363). -/
structure Installment where
  installment_number : Nat
  amount : ℚ
  paid_amount : ℚ
  remaining_amount : ℚ
  due_date : Date
  status : String
deriving DecidableEq, Repr

/-- A persisted `Payment` document (`server.py` line 1279), reduced to the
fields the claims are about. -/
structure Payment where
  payment_number : Nat
  amount : ℚ
deriving DecidableEq, Repr

/-! ## Payment ledger operations -/

instance {ε α : Type} [DecidableEq ε] [DecidableEq α] : DecidableEq (Except ε α)
  | .ok a, .ok b =>
      if h : a = b then .isTrue (by rw [h]) else .isFalse (by simp [h])
  | .ok _, .error _ => .isFalse (by simp)
  | .error _, .ok _ => .isFalse (by simp)
  | .error a, .error b =>
      if h : a = b then .isTrue (by rw [h]) else .isFalse (by simp [h])

/-- Outcome of a `pay_installment` request: the (possibly updated)
installment and parent invoice, the payment documents and audit entries the
call persisted, and the HTTP-level response (`.error` for an exception or a
4xx rejection). -/
structure PayInstallmentResult where
  installment : Installment
  invoice : Invoice
  new_payments : List Payment
  new_audits : List AuditLogType
  response : Except String String
deriving DecidableEq, Repr

/-- `POST /installments/{id}/pay` (`server.py` line 6640).  Rejects only an
already-paid installment; otherwise caps the requested amount at the
installment's remaining amount, persists a `Payment`, updates the
installment and the parent invoice, and finally attempts the audit entry
with `AuditLogType.PAYMENT_RECEIVED` — a member the enum does not define,
so the attribute lookup fails after the balance mutations. -/
def pay_installment (request_amount : ℚ) (payment_number : Nat)
    (inst : Installment) (invoice : Invoice) : PayInstallmentResult :=
  if inst.status = "paid" then
    ⟨inst, invoice, [], [], .error "400: Installment already paid"⟩
  else
    let amount := min request_amount inst.remaining_amount
    let payment : Payment := ⟨payment_number, amount⟩
    let new_paid := inst.paid_amount + amount
    let new_remaining := inst.remaining_amount - amount
    let new_status := if new_remaining ≤ 0 then "paid" else "partial"
    let inst' : Installment :=
      { inst with
        paid_amount := new_paid
        remaining_amount := max 0 new_remaining
        status := new_status }
    let invoice_new_paid := invoice.paid_amount + amount
    let invoice_new_remaining := invoice.remaining_amount - amount
    let invoice_status := if invoice_new_remaining ≤ 0 then "paid" else "partial"
    let invoice' : Invoice :=
      { invoice with
        paid_amount := invoice_new_paid
        remaining_amount := max 0 invoice_new_remaining
        status := invoice_status }
    match AuditLogType.fromName "PAYMENT_RECEIVED" with
    | some t => ⟨inst', invoice', [payment], [t], .ok "Payment recorded successfully"⟩
    | none =>
        ⟨inst', invoice', [payment], [],
          .error "AttributeError: PAYMENT_RECEIVED"⟩

/-- Outcome of a `create_payment` request. -/
structure CreatePaymentResult where
  invoice : Invoice
  new_payments : List Payment
  new_audits : List AuditLogType
  response : Except String String
deriving DecidableEq, Repr

/-- `POST /accounting/payments` (`server.py` line 6906).  Rejects an amount
above the invoice's remaining amount, then a non-positive amount, before
any write; otherwise persists the `Payment`, updates the invoice (note the
`fully_paid` / `partially_paid` status vocabulary of `InvoiceStatus`),
appends a payment summary to the invoice's embedded list, and writes a
`PAYMENT_RECORDED` audit entry. -/
def create_payment (amount : ℚ) (payment_number : Nat) (invoice : Invoice) :
    CreatePaymentResult :=
  let remaining := invoice.remaining_amount
  if amount > remaining then
    ⟨invoice, [], [], .error "400: Payment amount exceeds remaining amount"⟩
  else if amount ≤ 0 then
    ⟨invoice, [], [], .error "400: Payment amount must be greater than 0"⟩
  else
    let payment : Payment := ⟨payment_number, amount⟩
    let new_paid := invoice.paid_amount + amount
    let new_remaining := invoice.total_amount - new_paid
    let new_status := if new_remaining ≤ 0 then "fully_paid" else "partially_paid"
    let invoice' : Invoice :=
      { invoice with
        paid_amount := new_paid
        remaining_amount := max 0 new_remaining
        status := new_status
        payments := invoice.payments ++ [amount] }
    match AuditLogType.fromName "PAYMENT_RECORDED" with
    | some t => ⟨invoice', [payment], [t], .ok "Payment recorded successfully"⟩
    | none => ⟨invoice', [payment], [], .error "AttributeError: PAYMENT_RECORDED"⟩

/-! ## Invoice factory and installment generation -/

/-- The fields of the approved `Order` snapshot that
`create_invoice_from_order` consumes. -/
structure Order where
  total_amount : ℚ
  payment_status : String
  payment_method : Option String
  amount_paid : ℚ
  first_due_date : Option Date
  schedule_type : String
  installments_count : Nat
  interval_days : Nat
deriving Repr

/-- The installment-creation loop of `create_invoice_from_order`, starting
at index `i` with `n` installments still to create: each installment gets
the fixed per-installment amount and the due date computed for its index;
a `ValueError` from the monthly `replace` aborts the loop, keeping the
installments already inserted. -/
def generateInstallmentsGo (amount_per : ℚ) (schedule_type : String)
    (first : Date) (interval_days : Nat) (i : Nat) :
    Nat → List Installment × Except String Unit
  | 0 => ([], .ok ())
  | n + 1 =>
    match dueDateOf schedule_type first interval_days i with
    | .error e => ([], .error e)
    | .ok d =>
        let inst : Installment := ⟨i + 1, amount_per, 0, amount_per, d, "upcoming"⟩
        let rest := generateInstallmentsGo amount_per schedule_type first interval_days
          (i + 1) n
        (inst :: rest.1, rest.2)

/-- Installment generation for a schedule over `invoice_remaining` (the
invoice's remaining amount at schedule-creation time):
`amount_per_installment = remaining_amount / installments_count` (a
`ZeroDivisionError` when the count is zero), then the creation loop. -/
def generateInstallments (invoice_remaining : ℚ) (installments_count : Nat)
    (schedule_type : String) (first : Date) (interval_days : Nat) :
    List Installment × Except String Unit :=
  if installments_count = 0 then ([], .error "ZeroDivisionError")
  else
    generateInstallmentsGo (invoice_remaining / installments_count) schedule_type
      first interval_days 0 installments_count

/-- Everything `create_invoice_from_order` persisted, plus its outcome. -/
structure CreateInvoiceResult where
  invoice : Invoice
  new_payments : List Payment
  installments : List Installment
  new_audits : List AuditLogType
  response : Except String Unit
deriving DecidableEq, Repr

/-- The optional installment-schedule step of `create_invoice_from_order`,
guarded by a present first due date and a positive remaining amount. -/
def scheduleGen (o : Order) (remaining : ℚ) :
    List Installment × Except String Unit :=
  match o.first_due_date with
  | some fd =>
      if 0 < remaining then
        generateInstallments remaining o.installments_count o.schedule_type fd
          o.interval_days
      else ([], .ok ())
  | none => ([], .ok ())

/-- Steps of `create_invoice_from_order` after the upfront-payment block:
the optional installment schedule, then the final `INVOICE_CREATED` audit
entry, reached only when no earlier step raised. -/
def scheduleAndFinish (invoice : Invoice) (pays : List Payment)
    (audits : List AuditLogType) (o : Order) (remaining : ℚ) :
    CreateInvoiceResult :=
  let gen := scheduleGen o remaining
  match gen.2 with
  | .error e => ⟨invoice, pays, gen.1, audits, .error e⟩
  | .ok _ =>
      match AuditLogType.fromName "INVOICE_CREATED" with
      | some t => ⟨invoice, pays, gen.1, audits ++ [t], .ok ()⟩
      | none => ⟨invoice, pays, gen.1, audits, .error "AttributeError: INVOICE_CREATED"⟩

/-- The `Invoice` record `create_invoice_from_order` builds: the
paid/remaining split and status are derived from the order's declared
`payment_status` (`full` / `partial` / anything else = unpaid), with the
declared paid amount capped at the total on the partial path. -/
def invoiceOfOrder (o : Order) (invoice_number : Nat) : Invoice :=
  let total := o.total_amount
  let paid :=
    if o.payment_status = "full" then total
    else if o.payment_status = "partial" then min o.amount_paid total
    else 0
  let remaining :=
    if o.payment_status = "full" then 0
    else if o.payment_status = "partial" then total - min o.amount_paid total
    else total
  let invoice_status :=
    if o.payment_status = "full" then "paid"
    else if o.payment_status = "partial" then "partial"
    else "pending"
  ⟨invoice_number, total, paid, remaining, invoice_status, []⟩

/-- `create_invoice_from_order` (`server.py` line 6228): computes the
paid/remaining split from the order's declared `payment_status`, persists
the invoice, synthesises an upfront `Payment` when `paid_amount > 0` and a
payment method is declared (whose audit entry references the undefined
`AuditLogType.PAYMENT_RECEIVED` member and therefore raises), then the
installment schedule and the final audit entry. -/
def create_invoice_from_order (o : Order) (invoice_number payment_number : Nat) :
    CreateInvoiceResult :=
  let invoice := invoiceOfOrder o invoice_number
  if 0 < invoice.paid_amount ∧ o.payment_method.isSome then
    let payment : Payment := ⟨payment_number, invoice.paid_amount⟩
    match AuditLogType.fromName "PAYMENT_RECEIVED" with
    | some t => scheduleAndFinish invoice [payment] [t] o invoice.remaining_amount
    | none =>
        ⟨invoice, [payment], [], [], .error "AttributeError: PAYMENT_RECEIVED"⟩
  else
    scheduleAndFinish invoice [] [] o invoice.remaining_amount

/-! ## Credit scorer -/

/-- An installment document as the credit scorer sees it: the status
string, the `rescheduled_from` marker (its Python truthiness decides
on-time vs late), the due date and the `paid_date` as day numbers (`none`
when the field is missing; a missing due date is skipped by the code's
`try`/`except`).  The document carries `paid_date`, but the scorer's loop
never reads it — payment timing plays no part in the code's
classification. -/
structure InstallmentDoc where
  status : String
  rescheduled_from : Option Date
  due_day : Option Int
  paid_day : Option Int
deriving DecidableEq, Repr

/-- Accumulator of the classification loop in `get_clinic_credit_score`. -/
structure CreditAcc where
  paid_on_time : Nat
  paid_late : Nat
  overdue : Nat
  total_overdue_days : Nat
deriving DecidableEq, Repr

/-- One iteration of the classification loop: a paid installment counts as
on-time when it was never rescheduled and as late otherwise; an overdue
installment is counted and contributes `max(0, (now - due_date).days)`
days when its due date parses. -/
def creditFold (now : Int) (acc : CreditAcc) (inst : InstallmentDoc) : CreditAcc :=
  if inst.status = "paid" then
    if inst.rescheduled_from.isNone then
      { acc with paid_on_time := acc.paid_on_time + 1 }
    else
      { acc with paid_late := acc.paid_late + 1 }
  else if inst.status = "overdue" then
    let acc' := { acc with overdue := acc.overdue + 1 }
    match inst.due_day with
    | some due =>
        { acc' with total_overdue_days := acc'.total_overdue_days + (now - due).toNat }
    | none => acc'
  else acc

/-- The score arithmetic of `get_clinic_credit_score`:
base 100, −5 per overdue, −1 per 7 cumulative overdue days (integer
division), −2 per late payment, +2 per on-time payment capped at 20,
clamped to [0, 100]. -/
def credit_score_value (c : CreditAcc) : Int :=
  max 0 (min 100
    (100 - 5 * (c.overdue : Int) - ((c.total_overdue_days / 7 : Nat) : Int)
      - 2 * (c.paid_late : Int) + min (2 * (c.paid_on_time : Int)) 20))

/-- The rating bands of `get_clinic_credit_score`. -/
def credit_rating (score : Int) : String :=
  if score ≥ 90 then "A"
  else if score ≥ 75 then "B"
  else if score ≥ 60 then "C"
  else if score ≥ 40 then "D"
  else "F"

/-- `GET /clinics/{id}/credit-score` (`server.py` line 7672), as a function
of the clinic's installment documents and the current day number: the
default (100, "A") for a clinic without installments, otherwise the
classification loop followed by the score arithmetic and rating bands. -/
def get_clinic_credit_score (now : Int) (insts : List InstallmentDoc) :
    Int × String :=
  if insts = [] then (100, "A")
  else
    let c := insts.foldl (creditFold now) ⟨0, 0, 0, 0⟩
    let s := credit_score_value c
    (s, credit_rating s)

/-! Declarative reformulations of the scorer's counts, used to state C10. -/

/-- Number of paid, never-rescheduled installments. -/
def countOnTime (insts : List InstallmentDoc) : Nat :=
  insts.countP (fun i => i.status == "paid" && i.rescheduled_from.isNone)

/-- Number of paid installments that carry a reschedule marker. -/
def countLate (insts : List InstallmentDoc) : Nat :=
  insts.countP (fun i => i.status == "paid" && !i.rescheduled_from.isNone)

/-- Number of currently-overdue installments. -/
def countOverdue (insts : List InstallmentDoc) : Nat :=
  insts.countP (fun i => i.status == "overdue")

/-- Cumulative days overdue, summed over the currently-overdue installments
whose due date is present. -/
def sumOverdueDays (now : Int) (insts : List InstallmentDoc) : Nat :=
  (insts.map (fun i =>
    if i.status == "overdue" then
      match i.due_day with
      | some due => (now - due).toNat
      | none => 0
    else 0)).sum

/-! Spec-side reading of the scorer's terms, for comparison with the
code's classification. -/

/-- Modelled from the spec's words: a paid installment is
late-but-eventually-paid when its payment date falls after its due date. -/
def specCountLate (insts : List InstallmentDoc) : Nat :=
  insts.countP (fun i => i.status == "paid" &&
    (match i.due_day, i.paid_day with
     | some d, some p => decide (d < p)
     | _, _ => false))

/-- Modelled from the spec's words: a paid installment is on-time when its
payment date falls on or before its due date. -/
def specCountOnTime (insts : List InstallmentDoc) : Nat :=
  insts.countP (fun i => i.status == "paid" &&
    (match i.due_day, i.paid_day with
     | some d, some p => decide (p ≤ d)
     | _, _ => false))

/-- Modelled from the spec's words: cumulative days overdue summed across
history — for a paid installment the days from its due date to its payment
date, for a currently-overdue installment the days from its due date to
now. -/
def specSumOverdueDays (now : Int) (insts : List InstallmentDoc) : Nat :=
  (insts.map (fun i =>
    if i.status == "paid" then
      match i.due_day, i.paid_day with
      | some d, some p => (p - d).toNat
      | _, _ => 0
    else if i.status == "overdue" then
      match i.due_day with
      | some d => (now - d).toNat
      | none => 0
    else 0)).sum

/-- Modelled from the spec's words: the claimed score formula over the
timing-based classification above. -/
def specCreditScore (now : Int) (insts : List InstallmentDoc) : Int :=
  max 0 (min 100
    (100 - 5 * (countOverdue insts : Int)
      - ((specSumOverdueDays now insts / 7 : Nat) : Int)
      - 2 * (specCountLate insts : Int)
      + min (2 * (specCountOnTime insts : Int)) 20))

/-! ## Invariants and spec-side definitions -/

/-- The per-installment ledger invariant:
`paid_amount + remaining_amount = amount`, and the status is `"paid"`
exactly when nothing remains. -/
def InstInv (inst : Installment) : Prop :=
  inst.paid_amount + inst.remaining_amount = inst.amount ∧
  (inst.status = "paid" ↔ inst.remaining_amount = 0)

instance (inst : Installment) : Decidable (InstInv inst) := by
  unfold InstInv; infer_instance

/-- Modelled from the spec's words, for comparison with the code's status
assignments: status as a pure function of the remaining amount
(0 → paid, 0 < remaining < total → partial, remaining = total → pending). -/
def specStatusOfRemaining (remaining total : ℚ) : String :=
  if remaining = 0 then "paid"
  else if remaining < total then "partial"
  else "pending"

theorem specStatus_paid (total : ℚ) : specStatusOfRemaining 0 total = "paid" := by
  simp [specStatusOfRemaining]

theorem specStatus_between (r total : ℚ) (h1 : r ≠ 0) (h2 : r < total) :
    specStatusOfRemaining r total = "partial" := by
  simp [specStatusOfRemaining, h1, h2]

theorem specStatus_pending (r total : ℚ) (h1 : r ≠ 0) (h2 : ¬ r < total) :
    specStatusOfRemaining r total = "pending" := by
  simp [specStatusOfRemaining, h1, h2]

/-- `scheduleAndFinish` never rewrites the invoice record it is given. -/
theorem scheduleAndFinish_invoice (invoice : Invoice) (pays : List Payment)
    (audits : List AuditLogType) (o : Order) (remaining : ℚ) :
    (scheduleAndFinish invoice pays audits o remaining).invoice = invoice := by
  rcases h : (scheduleGen o remaining).2 with e | u <;>
    simp [scheduleAndFinish, h, AuditLogType.fromName]

/-- The invoice record in the factory's outcome is `invoiceOfOrder`, on
every control path. -/
theorem create_invoice_from_order_invoice (o : Order) (i p : Nat) :
    (create_invoice_from_order o i p).invoice = invoiceOfOrder o i := by
  by_cases h : 0 < (invoiceOfOrder o i).paid_amount ∧ o.payment_method.isSome
  · simp [create_invoice_from_order, h, AuditLogType.fromName]
  · simp only [create_invoice_from_order, h, if_false, reduceIte]
    exact scheduleAndFinish_invoice ..

/-- `scheduleAndFinish` reports exactly the installments the schedule step
created. -/
theorem scheduleAndFinish_installments (invoice : Invoice) (pays : List Payment)
    (audits : List AuditLogType) (o : Order) (remaining : ℚ) :
    (scheduleAndFinish invoice pays audits o remaining).installments =
      (scheduleGen o remaining).1 := by
  rcases h : (scheduleGen o remaining).2 with e | u <;>
    simp [scheduleAndFinish, h, AuditLogType.fromName]

/-- Every installment the creation loop emits carries the fixed
per-installment amount, zero paid, and status `"upcoming"`. -/
theorem generateInstallmentsGo_mem (ap : ℚ) (st : String) (fd : Date) (iv : Nat) :
    ∀ (n i : Nat), ∀ inst ∈ (generateInstallmentsGo ap st fd iv i n).1,
      inst.paid_amount = 0 ∧ inst.remaining_amount = ap ∧ inst.amount = ap ∧
        inst.status = "upcoming" := by
  intro n
  induction n with
  | zero => intro i inst h; simp [generateInstallmentsGo] at h
  | succ n ih =>
    intro i inst h
    rw [generateInstallmentsGo] at h
    rcases hd : dueDateOf st fd iv i with e | d <;> rw [hd] at h
    · simp at h
    · simp only [List.mem_cons] at h
      rcases h with h | h
      · subst h
        exact ⟨rfl, rfl, rfl, rfl⟩
      · exact ih (i + 1) inst h

/-- For a positive scheduled amount, every generated installment satisfies
the per-installment ledger invariant. -/
theorem generateInstallments_InstInv (r : ℚ) (count : Nat) (st : String)
    (fd : Date) (iv : Nat) (hr : 0 < r) :
    ∀ inst ∈ (generateInstallments r count st fd iv).1, InstInv inst := by
  intro inst h
  unfold generateInstallments at h
  by_cases hc : count = 0
  · simp [hc] at h
  · rw [if_neg hc] at h
    obtain ⟨hp, hrem, ha, hs⟩ := generateInstallmentsGo_mem _ _ _ _ _ _ inst h
    have hap : 0 < r / (count : ℚ) := by
      apply div_pos hr
      exact_mod_cast Nat.pos_of_ne_zero hc
    constructor
    · rw [hp, hrem, ha]
      ring
    · rw [hs, hrem]
      constructor
      · intro hc2
        exact absurd hc2 (by decide)
      · intro hc2
        exact absurd hc2 (ne_of_gt hap)

/-- `pay_installment` preserves the per-installment ledger invariant, both
on the already-paid rejection path and on the applied path. -/
theorem pay_installment_InstInv (a : ℚ) (p : Nat) (inst : Installment)
    (inv : Invoice) (h : InstInv inst) :
    InstInv (pay_installment a p inst inv).installment := by
  by_cases hs : inst.status = "paid"
  · simpa [pay_installment, hs] using h
  · obtain ⟨hsum, hiff⟩ := h
    simp only [pay_installment, hs, if_false, reduceIte, AuditLogType.fromName,
      String.reduceEq]
    have hmin : min a inst.remaining_amount ≤ inst.remaining_amount :=
      min_le_right _ _
    have hge : 0 ≤ inst.remaining_amount - min a inst.remaining_amount := by
      linarith
    unfold InstInv
    simp only
    rw [max_eq_right hge]
    constructor
    · rw [← hsum]
      ring
    · by_cases hz : inst.remaining_amount - min a inst.remaining_amount ≤ 0
      · rw [if_pos hz]
        have h0 : inst.remaining_amount - min a inst.remaining_amount = 0 :=
          le_antisymm hz hge
        simp [h0]
      · rw [if_neg hz]
        have hne : inst.remaining_amount - min a inst.remaining_amount ≠ 0 :=
          fun hc => hz (le_of_eq hc)
        simp [hne]

/-- Every installment the factory persists satisfies the per-installment
ledger invariant, on every control path. -/
theorem create_invoice_installments_InstInv (o : Order) (i p : Nat) :
    ∀ inst ∈ (create_invoice_from_order o i p).installments, InstInv inst := by
  intro inst h
  simp only [create_invoice_from_order] at h
  by_cases hc : 0 < (invoiceOfOrder o i).paid_amount ∧ o.payment_method.isSome
  · rw [if_pos hc] at h
    simp [AuditLogType.fromName] at h
  · rw [if_neg hc] at h
    rw [scheduleAndFinish_installments] at h
    unfold scheduleGen at h
    rcases hfd : o.first_due_date with _ | fd <;> rw [hfd] at h <;> dsimp only at h
    · simp at h
    · by_cases hrem : 0 < (invoiceOfOrder o i).remaining_amount
      · rw [if_pos hrem] at h
        exact generateInstallments_InstInv _ _ _ _ _ hrem inst h
      · rw [if_neg hrem] at h
        simp at h

/-! ## Claims -/

/-- C1: the claim says every `next(entity_type, start_from)` call returns a
value strictly greater than all earlier returns for that entity type.  The
effective allocator (the second, shadowing definition of
`get_next_serial_number`) only reads the greatest persisted `serial_number`
field and adds one; with no such document persisted between two calls —
and invoice/payment documents never carry a `serial_number` field at all —
both calls return `default_start`, so the second return is not strictly
greater than the first.  The first-call clause itself holds. -/
theorem C1_allocator_not_strictly_increasing :
    get_next_serial_number [] 10001 = 10001 ∧
    ¬ get_next_serial_number [] 10001 < get_next_serial_number [] 10001 := by
  decide

/-- C2: the claim says `paid_amount + remaining_amount = total_amount`
after every ledger operation.  Evaluation at a failing input: an invoice of
total 100 with a single installment of 100; a direct payment of 60 via
`create_payment` followed by a full installment payment of 100 via
`pay_installment` (both accepted by the code's checks) leaves the invoice
with `paid_amount = 160` and `remaining_amount = 0`, so the invariant
fails. -/
theorem C2_invoice_conservation_violated :
    let inv0 : Invoice := ⟨10001, 100, 0, 100, "pending", []⟩
    let inst0 : Installment := ⟨1, 100, 0, 100, ⟨2026, 1, 15⟩, "upcoming"⟩
    let r1 := create_payment 60 20001 inv0
    let r2 := pay_installment 100 20002 inst0 r1.invoice
    r1.response = .ok "Payment recorded successfully" ∧
    r2.invoice.paid_amount = 160 ∧
    r2.invoice.remaining_amount = 0 ∧
    r2.invoice.total_amount = 100 ∧
    r2.invoice.paid_amount + r2.invoice.remaining_amount ≠
      r2.invoice.total_amount := by
  refine ⟨?_, ?_, ?_, ?_, ?_⟩ <;>
    simp [create_payment, pay_installment, AuditLogType.fromName] <;> norm_num

/-- C4: the claim's scenario (order total 3000, declared partial with 1000
paid, deferred plan of 2 monthly installments).  Evaluation: the invoice and
the upfront payment of 1000 are persisted as claimed, but the upfront
payment's audit step references the undefined `AuditLogType.PAYMENT_RECEIVED`
member, so the operation raises before the installment loop: no installment
and no audit entry is created, against the claimed two installments of 1000. -/
theorem C4_scenario_evaluation :
    let o : Order :=
      ⟨3000, "partial", some "cash", 1000, some ⟨2026, 1, 15⟩, "monthly", 2, 30⟩
    let r := create_invoice_from_order o 10001 20001
    r.invoice = ⟨10001, 3000, 1000, 2000, "partial", []⟩ ∧
    r.new_payments = [⟨20001, 1000⟩] ∧
    r.installments = [] ∧
    r.new_audits = [] ∧
    r.response = .error "AttributeError: PAYMENT_RECEIVED" := by
  have hmin : min (1000 : ℚ) 3000 = 1000 := by norm_num
  refine ⟨?_, ?_, ?_, ?_, ?_⟩ <;>
    simp [create_invoice_from_order, invoiceOfOrder, AuditLogType.fromName, hmin] <;>
      norm_num

/-- C5: the claim says every ledger operation that mutates a balance
appends at least one audit entry before completing.  Evaluation at a
failing input: a plain installment payment of 50 mutates the installment's
and the invoice's balances, then raises `AttributeError` on the undefined
`AuditLogType.PAYMENT_RECEIVED` member, so the operation completes (as a
500) with no audit entry appended. -/
theorem C5_balance_mutation_without_audit :
    let inst : Installment := ⟨1, 100, 0, 100, ⟨2026, 1, 15⟩, "upcoming"⟩
    let inv : Invoice := ⟨10001, 100, 0, 100, "pending", []⟩
    let r := pay_installment 50 20001 inst inv
    r.installment.paid_amount = 50 ∧
    r.installment.remaining_amount = 50 ∧
    r.invoice.paid_amount = 50 ∧
    r.new_payments = [⟨20001, 50⟩] ∧
    r.new_audits = [] ∧
    r.response = .error "AttributeError: PAYMENT_RECEIVED" := by
  refine ⟨?_, ?_, ?_, ?_, ?_, ?_⟩ <;>
    simp [pay_installment, AuditLogType.fromName] <;> norm_num

/-- C9: the claim says monthly due dates clamp the day to the last valid
day of the target month for every year.  Evaluation at a failing input: the
code's month table uses the simplified `year % 4 == 0` leap test, so from
Jan 31, 2100 (a non-leap year divisible by 4) it computes Feb 29, 2100 —
an invalid date, which `datetime.replace` rejects with `ValueError` instead
of producing the claimed Feb 28, 2100. -/
theorem C9_century_year_value_error :
    monthlyTarget ⟨2100, 1, 31⟩ 1 = ⟨2100, 2, 29⟩ ∧
    isLeapYear 2100 = false ∧
    gregDaysInMonth 2100 2 = 28 ∧
    dueDateOf "monthly" ⟨2100, 1, 31⟩ 30 1 =
      .error "ValueError: day is out of range for month" := by
  decide

/-- C3 counterexample: the claim says both payment operations reject
`amount > remaining` and `amount ≤ 0` with no state change.  For
`pay_installment` this fails: a request of 250 against an installment with
remaining 100 is not rejected — a capped Payment of 100 is persisted and
the balances move; a request of −50 is likewise applied, persisting a
Payment of −50 and driving the remaining amount up to 150. -/
theorem C3_pay_installment_not_rejected :
    let inst : Installment := ⟨1, 100, 0, 100, ⟨2026, 1, 15⟩, "upcoming"⟩
    let inv : Invoice := ⟨10001, 500, 0, 500, "pending", []⟩
    let over := pay_installment 250 20001 inst inv
    let nonpos := pay_installment (-50) 20002 inst inv
    over.new_payments = [⟨20001, 100⟩] ∧
    over.installment.paid_amount = 100 ∧
    over.installment.remaining_amount = 0 ∧
    nonpos.new_payments = [⟨20002, -50⟩] ∧
    nonpos.installment.paid_amount = -50 ∧
    nonpos.installment.remaining_amount = 150 := by
  refine ⟨?_, ?_, ?_, ?_, ?_, ?_⟩ <;>
    simp [pay_installment, AuditLogType.fromName] <;> norm_num

/-- C3 amended: `create_payment` does reject a request above the remaining
amount, and a non-positive request, synchronously and with no state change;
`pay_installment`, however, performs neither check: for any non-paid
installment it persists a Payment of `min(request, remaining)` and applies
that amount, silently capping overpayments and accepting non-positive
amounts. -/
theorem C3_create_payment_rejects_pay_installment_caps :
    (∀ (inv : Invoice) (a : ℚ) (p : Nat), inv.remaining_amount < a →
      create_payment a p inv =
        ⟨inv, [], [], .error "400: Payment amount exceeds remaining amount"⟩) ∧
    (∀ (inv : Invoice) (a : ℚ) (p : Nat), a ≤ 0 →
      (create_payment a p inv).invoice = inv ∧
      (create_payment a p inv).new_payments = [] ∧
      (create_payment a p inv).new_audits = [] ∧
      ∃ e, (create_payment a p inv).response = .error e) ∧
    (∀ (inst : Installment) (inv : Invoice) (a : ℚ) (p : Nat),
      inst.status ≠ "paid" →
      (pay_installment a p inst inv).new_payments =
        [⟨p, min a inst.remaining_amount⟩] ∧
      (pay_installment a p inst inv).installment.paid_amount =
        inst.paid_amount + min a inst.remaining_amount) := by
  refine ⟨?_, ?_, ?_⟩
  · intro inv a p h
    simp [create_payment, h]
  · intro inv a p h
    by_cases hg : a > inv.remaining_amount
    · simp [create_payment, hg]
    · simp [create_payment, hg, h]
  · intro inst inv a p h
    simp [pay_installment, AuditLogType.fromName, h]

/-- Witness for the amended C3 theorem at concrete inputs. -/
theorem C3_amended_witness :
    ((100 : ℚ) < 250 ∧
      create_payment 250 20001 ⟨10001, 100, 0, 100, "pending", []⟩ =
        ⟨⟨10001, 100, 0, 100, "pending", []⟩, [], [],
          .error "400: Payment amount exceeds remaining amount"⟩) ∧
    ((0 : ℚ) ≤ 0 ∧
      (create_payment 0 20001 ⟨10001, 100, 0, 100, "pending", []⟩).new_payments
        = []) ∧
    ("upcoming" ≠ "paid" ∧
      (pay_installment 30 20001 ⟨1, 100, 0, 100, ⟨2026, 1, 15⟩, "upcoming"⟩
          ⟨10001, 100, 0, 100, "pending", []⟩).installment.paid_amount
        = 0 + min 30 100) := by
  refine ⟨⟨by norm_num, ?_⟩, ⟨le_refl 0, ?_⟩, ⟨by decide, ?_⟩⟩
  · exact C3_create_payment_rejects_pay_installment_caps.1
      ⟨10001, 100, 0, 100, "pending", []⟩ 250 20001 (by norm_num)
  · exact (C3_create_payment_rejects_pay_installment_caps.2.1
      ⟨10001, 100, 0, 100, "pending", []⟩ 0 20001 (le_refl 0)).2.1
  · exact (C3_create_payment_rejects_pay_installment_caps.2.2
      ⟨1, 100, 0, 100, ⟨2026, 1, 15⟩, "upcoming"⟩
      ⟨10001, 100, 0, 100, "pending", []⟩ 30 20001 (by decide)).2

/-- C6 counterexample: the claim says every operation stores the same pure
function of the remaining amount, with value `"paid"` at remaining 0.
A full direct payment via `create_payment` drives the remaining amount to 0
but stores `"fully_paid"` (the `InvoiceStatus` vocabulary), not `"paid"`. -/
theorem C6_status_vocabulary_differs :
    let r := create_payment 100 20001 ⟨10001, 100, 0, 100, "pending", []⟩
    r.invoice.remaining_amount = 0 ∧
    specStatusOfRemaining r.invoice.remaining_amount r.invoice.total_amount = "paid" ∧
    r.invoice.status = "fully_paid" ∧
    r.invoice.status ≠ "paid" := by
  have h0 : (create_payment 100 20001
      ⟨10001, 100, 0, 100, "pending", []⟩).invoice.remaining_amount = 0 := by
    simp [create_payment, AuditLogType.fromName]
    norm_num
  have h1 : (create_payment 100 20001
      ⟨10001, 100, 0, 100, "pending", []⟩).invoice.status = "fully_paid" := by
    simp [create_payment, AuditLogType.fromName]
    norm_num
  refine ⟨h0, ?_, h1, ?_⟩
  · rw [h0]
    exact specStatus_paid _
  · rw [h1]
    decide

/-- C6 amended: the status each operation stores is a pure function of the
stored remaining amount, but the function differs per operation:
`create_invoice_from_order` stores the claimed three-valued function
(pending / partial / paid) — for a positive total and, on the declared-partial
path, a declared amount strictly between 0 and the total — while
`create_payment` stores `"fully_paid"` exactly when the stored remaining
amount is 0 and `"partially_paid"` otherwise, and `pay_installment` stores
`"paid"` exactly when the stored invoice remaining amount is 0 and
`"partial"` otherwise. -/
theorem C6_status_function_per_operation :
    (∀ (o : Order) (i p : Nat), 0 < o.total_amount →
      (o.payment_status = "partial" →
        0 < o.amount_paid ∧ o.amount_paid < o.total_amount) →
      (create_invoice_from_order o i p).invoice.status =
        specStatusOfRemaining (create_invoice_from_order o i p).invoice.remaining_amount
          (create_invoice_from_order o i p).invoice.total_amount) ∧
    (∀ (inv : Invoice) (a : ℚ) (p : Nat), 0 < a → a ≤ inv.remaining_amount →
      ((create_payment a p inv).invoice.status = "fully_paid" ↔
        (create_payment a p inv).invoice.remaining_amount = 0) ∧
      ((create_payment a p inv).invoice.status = "partially_paid" ↔
        (create_payment a p inv).invoice.remaining_amount ≠ 0)) ∧
    (∀ (inst : Installment) (inv : Invoice) (a : ℚ) (p : Nat),
      inst.status ≠ "paid" →
      ((pay_installment a p inst inv).invoice.status = "paid" ↔
        (pay_installment a p inst inv).invoice.remaining_amount = 0) ∧
      ((pay_installment a p inst inv).invoice.status = "partial" ↔
        (pay_installment a p inst inv).invoice.remaining_amount ≠ 0)) := by
  refine ⟨?_, ?_, ?_⟩
  · intro o i p htot hpar
    rw [create_invoice_from_order_invoice]
    by_cases hf : o.payment_status = "full"
    · have hv : invoiceOfOrder o i = ⟨i, o.total_amount, o.total_amount, 0, "paid", []⟩ := by
        simp [invoiceOfOrder, hf]
      rw [hv]
      exact (specStatus_paid o.total_amount).symm
    · by_cases hp : o.payment_status = "partial"
      · obtain ⟨h1, h2⟩ := hpar hp
        have hv : invoiceOfOrder o i =
            ⟨i, o.total_amount, o.amount_paid, o.total_amount - o.amount_paid,
              "partial", []⟩ := by
          simp [invoiceOfOrder, hf, hp, min_eq_left h2.le]
        have hlt : o.total_amount - o.amount_paid < o.total_amount := by linarith
        have hne : o.total_amount - o.amount_paid ≠ 0 := by
          intro hc
          exact (ne_of_gt h2) (sub_eq_zero.mp hc)
        rw [hv]
        exact (specStatus_between _ _ hne hlt).symm
      · have hv : invoiceOfOrder o i =
            ⟨i, o.total_amount, 0, o.total_amount, "pending", []⟩ := by
          simp [invoiceOfOrder, hf, hp]
        rw [hv]
        exact (specStatus_pending _ _ (ne_of_gt htot) (lt_irrefl _)).symm
  · intro inv a p ha har
    have h1 : ¬ a > inv.remaining_amount := not_lt.mpr har
    have h2 : ¬ a ≤ 0 := not_le.mpr ha
    simp only [create_payment, h1, h2, if_false, reduceIte, AuditLogType.fromName,
      String.reduceEq, if_true]
    by_cases hz : inv.total_amount - (inv.paid_amount + a) ≤ 0
    · rw [if_pos hz, max_eq_left hz]
      simp
    · rw [if_neg hz, max_eq_right (le_of_lt (not_le.mp hz))]
      have hx : inv.total_amount - (inv.paid_amount + a) ≠ 0 :=
        ne_of_gt (not_le.mp hz)
      simp [hx]
  · intro inst inv a p h
    simp only [pay_installment, h, if_false, reduceIte, AuditLogType.fromName,
      String.reduceEq]
    by_cases hz : inv.remaining_amount - min a inst.remaining_amount ≤ 0
    · rw [if_pos hz, max_eq_left hz]
      simp
    · rw [if_neg hz, max_eq_right (le_of_lt (not_le.mp hz))]
      have hx : inv.remaining_amount - min a inst.remaining_amount ≠ 0 :=
        ne_of_gt (not_le.mp hz)
      simp [hx]

/-- Witness for the amended C6 theorem at concrete inputs. -/
theorem C6_amended_witness :
    ((0 : ℚ) < 3000 ∧
      (create_invoice_from_order
          ⟨3000, "partial", none, 1000, none, "monthly", 2, 30⟩ 10001 20001).invoice.status
        = specStatusOfRemaining
            (create_invoice_from_order
              ⟨3000, "partial", none, 1000, none, "monthly", 2, 30⟩ 10001 20001).invoice.remaining_amount
            (create_invoice_from_order
              ⟨3000, "partial", none, 1000, none, "monthly", 2, 30⟩ 10001 20001).invoice.total_amount) ∧
    ((0 : ℚ) < 40 ∧ (40 : ℚ) ≤ 100 ∧
      ((create_payment 40 20001 ⟨10001, 100, 60, 100, "pending", []⟩).invoice.status
          = "fully_paid" ↔
        (create_payment 40 20001 ⟨10001, 100, 60, 100, "pending", []⟩).invoice.remaining_amount
          = 0)) ∧
    ("upcoming" ≠ "paid" ∧
      ((pay_installment 30 20001 ⟨1, 100, 0, 100, ⟨2026, 1, 15⟩, "upcoming"⟩
            ⟨10001, 100, 0, 100, "pending", []⟩).invoice.status = "partial" ↔
        (pay_installment 30 20001 ⟨1, 100, 0, 100, ⟨2026, 1, 15⟩, "upcoming"⟩
            ⟨10001, 100, 0, 100, "pending", []⟩).invoice.remaining_amount ≠ 0)) := by
  refine ⟨⟨by norm_num, ?_⟩, ⟨by norm_num, by norm_num, ?_⟩, ⟨by decide, ?_⟩⟩
  · exact C6_status_function_per_operation.1
      ⟨3000, "partial", none, 1000, none, "monthly", 2, 30⟩ 10001 20001
      (by norm_num) (fun _ => by norm_num)
  · exact (C6_status_function_per_operation.2.1
      ⟨10001, 100, 60, 100, "pending", []⟩ 40 20001 (by norm_num) (by norm_num)).1
  · exact (C6_status_function_per_operation.2.2
      ⟨1, 100, 0, 100, ⟨2026, 1, 15⟩, "upcoming"⟩
      ⟨10001, 100, 0, 100, "pending", []⟩ 30 20001 (by decide)).2

/-- C7: for every installment, `paid_amount + remaining_amount = amount`
and `status = "paid"` iff `remaining_amount = 0`, both at creation (every
installment the factory persists, on every control path) and after every
`pay_installment` call applied to it (whether the call is rejected as
already paid or applied, capped, to the remaining amount). -/
theorem C7_installment_invariant :
    (∀ (a : ℚ) (p : Nat) (inst : Installment) (inv : Invoice),
      InstInv inst → InstInv (pay_installment a p inst inv).installment) ∧
    (∀ (o : Order) (i p : Nat),
      ∀ inst ∈ (create_invoice_from_order o i p).installments, InstInv inst) :=
  ⟨pay_installment_InstInv, create_invoice_installments_InstInv⟩

/-- Witness for C7 at concrete inputs: a partially-paid installment keeps
the invariant across a full `pay_installment`, and a concrete factory run
yields an installment satisfying it. -/
theorem C7_installment_invariant_witness :
    (InstInv ⟨1, 100, 40, 60, ⟨2026, 1, 15⟩, "partial"⟩ ∧
      InstInv (pay_installment 60 20001 ⟨1, 100, 40, 60, ⟨2026, 1, 15⟩, "partial"⟩
        ⟨10001, 100, 40, 60, "partial", []⟩).installment) ∧
    (⟨1, 1000 / 2, 0, 1000 / 2, ⟨2026, 1, 15⟩, "upcoming"⟩ ∈
        (create_invoice_from_order
          ⟨1000, "unpaid", none, 0, some ⟨2026, 1, 15⟩, "weekly", 2, 30⟩
          10001 20001).installments ∧
      InstInv (⟨1, 1000 / 2, 0, 1000 / 2, ⟨2026, 1, 15⟩, "upcoming"⟩ :
        Installment)) := by
  have h : InstInv ⟨1, 100, 40, 60, ⟨2026, 1, 15⟩, "partial"⟩ := by
    constructor
    · norm_num
    · constructor
      · intro hc
        exact absurd hc (by decide)
      · intro hc
        exact absurd hc (by norm_num)
  have hmem : (⟨1, 1000 / 2, 0, 1000 / 2, ⟨2026, 1, 15⟩, "upcoming"⟩ :
      Installment) ∈
      (create_invoice_from_order
        ⟨1000, "unpaid", none, 0, some ⟨2026, 1, 15⟩, "weekly", 2, 30⟩
        10001 20001).installments := by
    simp [create_invoice_from_order, invoiceOfOrder, scheduleAndFinish, scheduleGen,
      generateInstallments, generateInstallmentsGo, dueDateOf, addDays, nextDay,
      AuditLogType.fromName]
  refine ⟨⟨h, C7_installment_invariant.1 60 20001 _ _ h⟩, hmem, ?_⟩
  exact C7_installment_invariant.2
    ⟨1000, "unpaid", none, 0, some ⟨2026, 1, 15⟩, "weekly", 2, 30⟩ 10001 20001
    _ hmem

/-- A creation loop that finished without a date error created exactly the
requested number of installments. -/
theorem generateInstallmentsGo_ok_length (ap : ℚ) (st : String) (fd : Date)
    (iv : Nat) :
    ∀ (n i : Nat) (l : List Installment),
      generateInstallmentsGo ap st fd iv i n = (l, .ok ()) → l.length = n := by
  intro n
  induction n with
  | zero =>
    intro i l h
    rw [generateInstallmentsGo] at h
    injection h with h1 h2
    rw [← h1]
    rfl
  | succ n ih =>
    intro i l h
    rw [generateInstallmentsGo] at h
    rcases hd : dueDateOf st fd iv i with e | d <;> rw [hd] at h
    · simp at h
    · rcases hr : generateInstallmentsGo ap st fd iv (i + 1) n with ⟨l2, r2⟩
      rw [hr] at h
      dsimp only at h
      injection h with h1 h2
      rw [← h1, List.length_cons]
      rw [h2] at hr
      rw [ih (i + 1) l2 hr]

/-- C8 counterexample: the claim's equal-split-and-exact-sum statement is
universal over every invoice and every `installments_count ≥ 1`, but a
monthly generation run from Jan 31, 2100 with `installments_count = 2` over
a remaining amount of 1000 aborts with `ValueError` after the first
installment (the mis-clamped date of C9): the persisted installments sum to
500, half the remaining amount, so the sum property fails. -/
theorem C8_aborted_run_sum_short :
    generateInstallments 1000 2 "monthly" ⟨2100, 1, 31⟩ 30 =
      ([⟨1, 500, 0, 500, ⟨2100, 1, 31⟩, "upcoming"⟩],
        .error "ValueError: day is out of range for month") ∧
    (([⟨1, 500, 0, 500, ⟨2100, 1, 31⟩, "upcoming"⟩] : List Installment).map
        (fun x => x.amount)).sum = 500 ∧
    (500 : ℚ) ≠ 1000 := by
  have h0 : dueDateOf "monthly" ⟨2100, 1, 31⟩ 30 0 = .ok ⟨2100, 1, 31⟩ := by
    decide
  have h1 : dueDateOf "monthly" ⟨2100, 1, 31⟩ 30 1 =
      .error "ValueError: day is out of range for month" := by
    decide
  refine ⟨?_, by norm_num, by norm_num⟩
  simp [generateInstallments, generateInstallmentsGo, h0, h1] <;> norm_num

/-- C8 amended: for every scheduled amount and every
`installments_count ≥ 1` (a count of 0 raises `ZeroDivisionError` instead),
a schedule generation run that COMPLETES splits the amount into `count`
installments all equal to `amount / count`, and their amounts sum exactly
to the scheduled amount — the code's remainder policy being exact rational
division (fractional amounts allowed, no rounding).  A run aborted mid-loop
by a date `ValueError` persists only the prefix created before the error
(see the counterexample above). -/
theorem C8_equal_split (r : ℚ) (count : Nat) (st : String) (fd : Date) (iv : Nat)
    (l : List Installment)
    (h : generateInstallments r count st fd iv = (l, .ok ())) :
    l.length = count ∧
    (∀ x ∈ l, x.amount = r / (count : ℚ)) ∧
    (l.map (fun x => x.amount)).sum = r := by
  unfold generateInstallments at h
  by_cases hc : count = 0
  · rw [if_pos hc] at h
    simp at h
  · rw [if_neg hc] at h
    have hlen := generateInstallmentsGo_ok_length _ _ _ _ _ _ _ h
    have hmem : ∀ x ∈ l, x.amount = r / (count : ℚ) := by
      intro x hx
      exact (generateInstallmentsGo_mem _ _ _ _ count 0 x (by rw [h]; exact hx)).2.2.1
    refine ⟨hlen, hmem, ?_⟩
    have hall : ∀ y ∈ l.map (fun x => x.amount), y = r / (count : ℚ) := by
      intro y hy
      obtain ⟨x, hx, hxy⟩ := List.mem_map.mp hy
      rw [← hxy]
      exact hmem x hx
    rw [List.sum_eq_card_nsmul _ _ hall, List.length_map, hlen, nsmul_eq_mul,
      mul_div_cancel₀]
    exact_mod_cast hc

/-- A concrete three-way weekly split used to witness C8. -/
def c8List : List Installment :=
  [⟨1, 1000 / 3, 0, 1000 / 3, ⟨2026, 1, 15⟩, "upcoming"⟩,
   ⟨2, 1000 / 3, 0, 1000 / 3, ⟨2026, 1, 22⟩, "upcoming"⟩,
   ⟨3, 1000 / 3, 0, 1000 / 3, ⟨2026, 1, 29⟩, "upcoming"⟩]

/-- Witness for C8: a completed weekly split of 1000 into 3. -/
theorem C8_equal_split_witness :
    generateInstallments 1000 3 "weekly" ⟨2026, 1, 15⟩ 30 = (c8List, .ok ()) ∧
    c8List.length = 3 ∧
    (c8List.map (fun x => x.amount)).sum = 1000 := by
  have hg : generateInstallments 1000 3 "weekly" ⟨2026, 1, 15⟩ 30 =
      (c8List, .ok ()) := by
    have h0 : addDays ⟨2026, 1, 15⟩ 0 = ⟨2026, 1, 15⟩ := by decide
    have h7 : addDays ⟨2026, 1, 15⟩ 7 = ⟨2026, 1, 22⟩ := by decide
    have h14 : addDays ⟨2026, 1, 15⟩ 14 = ⟨2026, 1, 29⟩ := by decide
    simp [generateInstallments, generateInstallmentsGo, dueDateOf, h0, h7, h14,
      c8List]
  exact ⟨hg, (C8_equal_split _ _ _ _ _ _ hg).1, (C8_equal_split _ _ _ _ _ _ hg).2.2⟩

/-- The classification loop accumulates exactly the declarative counts. -/
theorem creditFold_foldl (now : Int) :
    ∀ (insts : List InstallmentDoc) (acc : CreditAcc),
      insts.foldl (creditFold now) acc =
        ⟨acc.paid_on_time + countOnTime insts, acc.paid_late + countLate insts,
          acc.overdue + countOverdue insts,
          acc.total_overdue_days + sumOverdueDays now insts⟩ := by
  intro insts
  induction insts with
  | nil =>
    intro acc
    simp [countOnTime, countLate, countOverdue, sumOverdueDays]
  | cons x xs ih =>
    intro acc
    rw [List.foldl_cons, ih]
    simp only [countOnTime, countLate, countOverdue, sumOverdueDays,
      List.countP_cons, List.map_cons, List.sum_cons]
    by_cases hp : x.status = "paid"
    · rcases hro : x.rescheduled_from with _ | v
      · simp [creditFold, hp, hro, CreditAcc.mk.injEq] <;> omega
      · simp [creditFold, hp, hro, CreditAcc.mk.injEq] <;> omega
    · by_cases ho : x.status = "overdue"
      · rcases hdd : x.due_day with _ | due
        · simp [creditFold, hp, ho, hdd, CreditAcc.mk.injEq] <;> omega
        · simp [creditFold, hp, ho, hdd, CreditAcc.mk.injEq] <;> omega
      · simp [creditFold, hp, ho, CreditAcc.mk.injEq] <;> omega

/-- C10 counterexample: the claim scores by actual payment timing.  For a
single installment due on day 0, paid on day 60, never rescheduled (status
`"paid"`), the claimed formula gives 100 − ⌊60/7⌋ − 2·1 = 90 (one
late-but-eventually-paid installment contributing 60 cumulative overdue
days), but the code — which never reads `paid_date` and classifies every
never-rescheduled paid installment as on-time with zero overdue days —
returns 100. -/
theorem C10_paid_late_counted_on_time :
    specCreditScore 100 [⟨"paid", none, some 0, some 60⟩] = 90 ∧
    (get_clinic_credit_score 100 [⟨"paid", none, some 0, some 60⟩]).1 = 100 ∧
    (get_clinic_credit_score 100 [⟨"paid", none, some 0, some 60⟩]).1 ≠
      specCreditScore 100 [⟨"paid", none, some 0, some 60⟩] := by
  refine ⟨?_, ?_, ?_⟩ <;> decide

/-- C10 amended: for a clinic with at least one installment on record, the
credit score equals base 100, minus 5 per currently-overdue installment,
minus 1 per 7 cumulative overdue days, minus 2 per late installment, plus 2
per on-time installment capped at 20, clamped to [0, 100], with the rating
bands A ≥ 90, B ≥ 75, C ≥ 60, D ≥ 40, else F — where, per the code,
"late" means paid with a `rescheduled_from` marker, "on-time" means paid
without one (payment timing is never consulted), and the cumulative
overdue days are summed over the currently-overdue installments only. -/
theorem C10_credit_score_formula (now : Int) (insts : List InstallmentDoc)
    (h : insts ≠ []) :
    (get_clinic_credit_score now insts).1 =
      max 0 (min 100
        (100 - 5 * (countOverdue insts : Int)
          - ((sumOverdueDays now insts / 7 : Nat) : Int)
          - 2 * (countLate insts : Int)
          + min (2 * (countOnTime insts : Int)) 20)) ∧
    (0 ≤ (get_clinic_credit_score now insts).1 ∧
      (get_clinic_credit_score now insts).1 ≤ 100) ∧
    ((get_clinic_credit_score now insts).2 = "A" ↔
      90 ≤ (get_clinic_credit_score now insts).1) ∧
    ((get_clinic_credit_score now insts).2 = "B" ↔
      75 ≤ (get_clinic_credit_score now insts).1 ∧
        (get_clinic_credit_score now insts).1 < 90) ∧
    ((get_clinic_credit_score now insts).2 = "C" ↔
      60 ≤ (get_clinic_credit_score now insts).1 ∧
        (get_clinic_credit_score now insts).1 < 75) ∧
    ((get_clinic_credit_score now insts).2 = "D" ↔
      40 ≤ (get_clinic_credit_score now insts).1 ∧
        (get_clinic_credit_score now insts).1 < 60) ∧
    ((get_clinic_credit_score now insts).2 = "F" ↔
      (get_clinic_credit_score now insts).1 < 40) := by
  have hres : get_clinic_credit_score now insts =
      (credit_score_value
        ⟨countOnTime insts, countLate insts, countOverdue insts,
          sumOverdueDays now insts⟩,
        credit_rating (credit_score_value
          ⟨countOnTime insts, countLate insts, countOverdue insts,
            sumOverdueDays now insts⟩)) := by
    unfold get_clinic_credit_score
    rw [if_neg h, creditFold_foldl]
    simp
  rw [hres]
  refine ⟨rfl, ⟨le_max_left _ _, max_le (by norm_num) (min_le_left _ _)⟩,
    ?_, ?_, ?_, ?_, ?_⟩ <;>
    · unfold credit_rating
      split_ifs <;> simp <;> omega

/-- Witness for C10 at a one-installment history: a single on-time paid
installment scores 100 with rating A. -/
theorem C10_credit_score_witness :
    ([⟨"paid", none, none, none⟩] : List InstallmentDoc) ≠ [] ∧
    (get_clinic_credit_score 0 [⟨"paid", none, none, none⟩]).1 =
      max 0 (min 100
        (100 - 5 * (countOverdue [⟨"paid", none, none, none⟩] : Int)
          - ((sumOverdueDays 0 [⟨"paid", none, none, none⟩] / 7 : Nat) : Int)
          - 2 * (countLate [⟨"paid", none, none, none⟩] : Int)
          + min (2 * (countOnTime [⟨"paid", none, none, none⟩] : Int)) 20)) ∧
    ((get_clinic_credit_score 0 [⟨"paid", none, none, none⟩]).2 = "A" ↔
      90 ≤ (get_clinic_credit_score 0 [⟨"paid", none, none, none⟩]).1) := by
  refine ⟨by decide, ?_, ?_⟩
  · exact (C10_credit_score_formula 0 _ (by decide)).1
  · exact (C10_credit_score_formula 0 _ (by decide)).2.2.1

end PharmaTrack
